import Mathlib

/-!
Shallow embedding of the EOOS FreeRTOS system layer
(`src/include/private/sys.SemaphoreResource.hpp`,
`src/include/private/sys.MutexResource.hpp`,
`src/include/private/sys.ThreadResource.hpp`).

The underlying FreeRTOS kernel is an external collaborator: every kernel
call's outcome (whether a take/give passed, whether a handle was created,
whether a higher-priority task was woken, the current count) is an input
parameter of the embedded operation, and each operation also returns the
list of kernel calls it performed, so that "no kernel call happens on this
path" is expressible as an empty call list.
-/

set_option autoImplicit false

namespace EoosFreertos

/-- A kernel (FreeRTOS) call performed by an operation of this layer. -/
inductive KCall where
  | semTake
  | semGive
  | semGiveFromISR
  | semGetCount
  | mutexTakeRecursive
  | mutexGiveRecursive
  | taskCreate (uxPriority : Int)
  | taskPrioritySet (uxPriority : Int)
  | taskDelete
  | taskYield
  deriving DecidableEq

/-- Modelled from the spec: the ConstructibleObject base (outside `src/`)
holds a single validity flag that starts true at base construction and is
settable once by the subclass's constructor body; a later set is ignored
once the flag has been cleared. -/
def setConstructed (current flag : Bool) : Bool :=
  if current then flag else current

/-! ### SemaphoreResource (`sys.SemaphoreResource.hpp`) -/

/-- Embeds `SemaphoreResource::Type`. -/
inductive SemType where
  | TYPE_COUNTING
  | TYPE_BINARY
  deriving DecidableEq

/-- Embeds `SemaphoreResource::MAX_PERMITS = 0x7FFFFFFF`. -/
def MAX_PERMITS : Int := 0x7FFFFFFF

/-- State of a `SemaphoreResource` object: the once-latched construction
flag, the stored fields, and the `xHigherPriorityTaskWoken_` flag. -/
structure SemaphoreResource where
  constructed : Bool
  permits_ : Int
  maximum_ : Int
  type_ : SemType
  xHigherPriorityTaskWoken_ : Bool
  deriving DecidableEq

/-- The kernel creation call issued by `SemaphoreResource::initialize`:
counting semaphores pass the maximum and initial counts, binary semaphores
pass only the static buffer. -/
inductive CreateCall where
  | countingStatic (uxMaxCount uxInitialCount : Int)
  | binaryStatic
  deriving DecidableEq

/-- Embeds `SemaphoreResource::initialize`: creates the kernel semaphore; the
result is `sem_ != NULL`, i.e. whether the kernel returned a handle. -/
def SemaphoreResource.initializeSem (type_ : SemType) (maximum_ permits_ : Int)
    (kCreateOk : Bool) : Bool × List CreateCall :=
  match type_ with
  | .TYPE_COUNTING => (kCreateOk, [CreateCall.countingStatic maximum_ permits_])
  | .TYPE_BINARY => (kCreateOk, [CreateCall.binaryStatic])

/-- Embeds `SemaphoreResource::construct`: precondition checks then `initialize`. -/
def SemaphoreResource.construct (parentConstructed : Bool) (type_ : SemType)
    (permits_ maximum_ : Int) (kCreateOk : Bool) : Bool × List CreateCall :=
  if parentConstructed = false then (false, [])
  else if permits_ < 0 then (false, [])
  else if maximum_ < 0 then (false, [])
  else if maximum_ > MAX_PERMITS then (false, [])
  else SemaphoreResource.initializeSem type_ maximum_ permits_ kCreateOk

/-- The `SemaphoreResource(Type, int32_t permits = 0)` constructor:
`maximum_` is `MAX_PERMITS`; the permits argument is stored as given. -/
def mkSemaphoreTyped (type_ : SemType) (permits : Int) (kCreateOk : Bool) :
    SemaphoreResource :=
  { constructed :=
      setConstructed true
        (SemaphoreResource.construct true type_ permits MAX_PERMITS kCreateOk).1
    permits_ := permits
    maximum_ := MAX_PERMITS
    type_ := type_
    xHigherPriorityTaskWoken_ := false }

/-- The `SemaphoreResource(int32_t permits, int32_t maximum)` constructor:
always a counting semaphore. -/
def mkSemaphoreCounting (permits maximum : Int) (kCreateOk : Bool) :
    SemaphoreResource :=
  { constructed :=
      setConstructed true
        (SemaphoreResource.construct true SemType.TYPE_COUNTING permits maximum
          kCreateOk).1
    permits_ := permits
    maximum_ := maximum
    type_ := SemType.TYPE_COUNTING
    xHigherPriorityTaskWoken_ := false }

/-- Result of a semaphore operation: returned value, post state, kernel
calls performed. -/
structure SemOpResult (α : Type) where
  ret : α
  st : SemaphoreResource
  calls : List KCall
  deriving DecidableEq

/-- Embeds `SemaphoreResource::acquire`: gated on `isConstructed()`; on the valid
path it calls `xSemaphoreTake` and returns whether the take passed. -/
def SemaphoreResource.acquire (s : SemaphoreResource) (kTakeOk : Bool) :
    SemOpResult Bool :=
  if s.constructed then ⟨kTakeOk, s, [KCall.semTake]⟩ else ⟨false, s, []⟩

/-- Embeds `SemaphoreResource::release`: gated on `isConstructed()`; on the valid
path it calls `xSemaphoreGive`. It does not touch
`xHigherPriorityTaskWoken_`. -/
def SemaphoreResource.release (s : SemaphoreResource) (kGiveOk : Bool) :
    SemOpResult Bool :=
  if s.constructed then ⟨kGiveOk, s, [KCall.semGive]⟩ else ⟨false, s, []⟩

/-- Embeds `SemaphoreResource::releaseFromInterrupt`: gated on `isConstructed()`;
presets `xHigherPriorityTaskWoken_` to false, then `xSemaphoreGiveFromISR`
writes it (`kWoken` is the kernel's verdict on whether a higher-priority
task was unblocked). -/
def SemaphoreResource.releaseFromInterrupt (s : SemaphoreResource)
    (kGiveOk kWoken : Bool) : SemOpResult Bool :=
  if s.constructed then
    ⟨kGiveOk, { s with xHigherPriorityTaskWoken_ := kWoken },
      [KCall.semGiveFromISR]⟩
  else ⟨false, s, []⟩

/-- Embeds `SemaphoreResource::hasToSwitchContex`: a const read of
`xHigherPriorityTaskWoken_`; performs no kernel call and leaves the state
unchanged. -/
def SemaphoreResource.hasToSwitchContex (s : SemaphoreResource) :
    Bool × SemaphoreResource :=
  (s.xHigherPriorityTaskWoken_, s)

/-- Embeds `SemaphoreResource::getCount`: calls `uxSemaphoreGetCount` and returns
the kernel's count. Note: the source performs no `isConstructed()` check
here. -/
def SemaphoreResource.getCount (s : SemaphoreResource) (kCount : Int) :
    SemOpResult Int :=
  ⟨kCount, s, [KCall.semGetCount]⟩

/-! ### MutexResource (`sys.MutexResource.hpp`) -/

/-- State of a `MutexResource` object. -/
structure MutexResource where
  constructed : Bool
  deriving DecidableEq

/-- Embeds `MutexResource::construct`: parent-flag check then `initialize`, whose
result is whether `xSemaphoreCreateRecursiveMutexStatic` returned a
handle. -/
def MutexResource.construct (parentConstructed kCreateOk : Bool) : Bool :=
  if parentConstructed = false then false else kCreateOk

/-- The `MutexResource()` constructor. -/
def mkMutexResource (kCreateOk : Bool) : MutexResource :=
  { constructed := setConstructed true (MutexResource.construct true kCreateOk) }

/-- Embeds `MutexResource::tryLock`: always returns false. -/
def MutexResource.tryLock (_ : MutexResource) : Bool :=
  false

/-- Embeds `MutexResource::lock`: gated on `isConstructed()`; on the valid path it
calls `xSemaphoreTakeRecursive`. -/
def MutexResource.lock (m : MutexResource) (kTakeOk : Bool) :
    Bool × List KCall :=
  if m.constructed then (kTakeOk, [KCall.mutexTakeRecursive]) else (false, [])

/-- Embeds `MutexResource::unlock`: gated on `isConstructed()`; on the valid path
it calls `xSemaphoreGiveRecursive`. -/
def MutexResource.unlock (m : MutexResource) (kGiveOk : Bool) :
    Bool × List KCall :=
  if m.constructed then (kGiveOk, [KCall.mutexGiveRecursive]) else (false, [])

/-! ### ThreadResource (`sys.ThreadResource.hpp`) -/

/-- Modelled from the spec: the priority constants of the `api::Thread`
interface (outside `src/`) — a valid priority lies in
`[PRIORITY_MIN, PRIORITY_MAX]` or equals the idle sentinel
`PRIORITY_IDLE`; `PRIORITY_WRONG` is the "wrong priority" sentinel and
`PRIORITY_NORM` the construction default — together with the kernel
configuration bound `configMAX_PRIORITIES`. -/
structure PriorityCfg where
  PRIORITY_MIN : Int
  PRIORITY_MAX : Int
  PRIORITY_NORM : Int
  PRIORITY_IDLE : Int
  PRIORITY_WRONG : Int
  configMAX_PRIORITIES : Int

/-- Embeds `api::Thread::Status`. -/
inductive Status where
  | STATUS_NEW
  | STATUS_RUNNABLE
  | STATUS_DEAD
  deriving DecidableEq

/-- State of a `ThreadResource` object; `hasHandle` is `thread_ != NULL`. -/
structure ThreadResource where
  constructed : Bool
  status_ : Status
  priority_ : Int
  hasHandle : Bool
  deriving DecidableEq

/-- Result of a thread operation: returned value, post state, kernel calls
performed. -/
structure ThreadOpResult (α : Type) where
  ret : α
  st : ThreadResource
  calls : List KCall
  deriving DecidableEq

/-- Embeds `ThreadResource::convertPriority`: `static_cast<UBaseType_t>(priority)`,
i.e. the value reduced modulo 2^32 into the unsigned range. -/
def ThreadResource.convertPriority (priority : Int) : Int :=
  priority % (2 : Int) ^ 32

/-- Embeds `ThreadResource::isPriority`. -/
def ThreadResource.isPriority (cfg : PriorityCfg) (priority : Int) : Bool :=
  if cfg.PRIORITY_MIN ≤ priority ∧ priority ≤ cfg.PRIORITY_MAX then true
  else if priority = cfg.PRIORITY_IDLE then true
  else false

/-- Embeds `ThreadResource::construct`: precondition checks; on failure the status
is forced to `STATUS_DEAD`, on success it is (re)set to `STATUS_NEW`.
Returns the construction result and the resulting status. -/
def ThreadResource.construct (cfg : PriorityCfg)
    (parentConstructed taskNonNull taskConstructed : Bool) : Bool × Status :=
  let res :=
    if parentConstructed = false then false
    else if cfg.PRIORITY_MAX ≥ cfg.configMAX_PRIORITIES then false
    else if taskNonNull = false then false
    else if taskConstructed = false then false
    else true
  (res, if res then Status.STATUS_NEW else Status.STATUS_DEAD)

/-- The `ThreadResource(api::Task&)` constructor: `task_` is the address of
a reference, hence non-null; `status_` starts `STATUS_NEW`, `priority_`
starts `PRIORITY_NORM`, `thread_` starts `NULL`; then `construct` runs and
its result is latched. -/
def mkThreadResource (cfg : PriorityCfg) (taskConstructed : Bool) :
    ThreadResource :=
  { constructed :=
      setConstructed true (ThreadResource.construct cfg true true taskConstructed).1
    status_ := (ThreadResource.construct cfg true true taskConstructed).2
    priority_ := cfg.PRIORITY_NORM
    hasHandle := false }

/-- Embeds `ThreadResource::execute`: gated on `isConstructed()` and
`status_ == STATUS_NEW`; then `xTaskCreateStatic` is called (`kCreateOk`
tells whether the kernel returned a handle); on a null handle the status is
left unchanged, otherwise it becomes `STATUS_RUNNABLE`. -/
def ThreadResource.execute (t : ThreadResource) (kCreateOk : Bool) :
    ThreadOpResult Bool :=
  if t.constructed = false then ⟨false, t, []⟩
  else if t.status_ ≠ Status.STATUS_NEW then ⟨false, t, []⟩
  else if kCreateOk = false then
    ⟨false, { t with hasHandle := false },
      [KCall.taskCreate (ThreadResource.convertPriority t.priority_)]⟩
  else
    ⟨true, { t with status_ := Status.STATUS_RUNNABLE, hasHandle := true },
      [KCall.taskCreate (ThreadResource.convertPriority t.priority_)]⟩

/-- The spin loop inside `ThreadResource::join`: `obs` is the sequence of
values of `status_` observed on successive loop iterations (the field is
written concurrently by the trampoline); each non-`DEAD` observation costs
one `taskYIELD`; the loop exits with `true` at the first `STATUS_DEAD`
observation and is still spinning (`none`) if the sequence runs out. -/
def ThreadResource.joinLoop : List Status → Option Bool × List KCall
  | [] => (none, [])
  | st :: rest =>
    if st = Status.STATUS_DEAD then (some true, [])
    else
      ((ThreadResource.joinLoop rest).1,
        KCall.taskYield :: (ThreadResource.joinLoop rest).2)

/-- Embeds `ThreadResource::join`: gated on `isConstructed()` and
`status_ == STATUS_RUNNABLE`; otherwise it returns false immediately,
consuming no observations and performing no kernel call. -/
def ThreadResource.join (t : ThreadResource) (obs : List Status) :
    ThreadOpResult (Option Bool) :=
  if t.constructed = true ∧ t.status_ = Status.STATUS_RUNNABLE then
    ⟨(ThreadResource.joinLoop obs).1, t, (ThreadResource.joinLoop obs).2⟩
  else ⟨some false, t, []⟩

/-- Embeds `ThreadResource::getPriority`: `priority_` if constructed, else the
`PRIORITY_WRONG` sentinel. -/
def ThreadResource.getPriority (cfg : PriorityCfg) (t : ThreadResource) : Int :=
  if t.constructed then t.priority_ else cfg.PRIORITY_WRONG

/-- Embeds `ThreadResource::setPriority`: gated on `isConstructed()` and
`isPriority`; `STATUS_RUNNABLE` propagates via `vTaskPrioritySet` and
stores, `STATUS_NEW` only stores, the default branch does nothing. The
local `res` is initialised to false and no branch ever sets it to true. -/
def ThreadResource.setPriority (cfg : PriorityCfg) (t : ThreadResource)
    (priority : Int) : ThreadOpResult Bool :=
  if t.constructed = true ∧ ThreadResource.isPriority cfg priority = true then
    match t.status_ with
    | Status.STATUS_RUNNABLE =>
      ⟨false, { t with priority_ := priority },
        [KCall.taskPrioritySet (ThreadResource.convertPriority priority)]⟩
    | Status.STATUS_NEW => ⟨false, { t with priority_ := priority }, []⟩
    | Status.STATUS_DEAD => ⟨false, t, []⟩
  else ⟨false, t, []⟩

/-- The `~ThreadResource()` destructor: if `thread_ != NULL`, deletes the
kernel task and sets `status_` to `STATUS_DEAD`. -/
def ThreadResource.destructor (t : ThreadResource) :
    ThreadResource × List KCall :=
  if t.hasHandle then
    ({ t with status_ := Status.STATUS_DEAD }, [KCall.taskDelete])
  else (t, [])

/-- The `ThreadResource::start` trampoline: after null/validity checks it
runs the task body once and sets `status_` to `STATUS_DEAD`
(`taskConstructedNow` is the task's validity re-read at run time). -/
def ThreadResource.start (pvNonNull : Bool) (t : ThreadResource)
    (taskConstructedNow : Bool) : ThreadResource :=
  if pvNonNull = false then t
  else if t.constructed = false then t
  else if taskConstructedNow = false then t
  else { t with status_ := Status.STATUS_DEAD }

/-! ### Auxiliary material shared by the theorems -/

/-- A concrete priority configuration used to instantiate theorems:
`PRIORITY_MIN = 1`, `PRIORITY_MAX = 10`, `PRIORITY_NORM = 5`,
`PRIORITY_IDLE = 0`, `PRIORITY_WRONG = -1`, `configMAX_PRIORITIES = 16`. -/
def cfg0 : PriorityCfg :=
  { PRIORITY_MIN := 1, PRIORITY_MAX := 10, PRIORITY_NORM := 5
    PRIORITY_IDLE := 0, PRIORITY_WRONG := -1, configMAX_PRIORITIES := 16 }

/-- A semaphore operation other than `releaseFromInterrupt`, with its
kernel outcome. -/
inductive SemOp where
  | acquireOp (kTakeOk : Bool)
  | releaseOp (kGiveOk : Bool)
  | hasToSwitchContexOp
  | getCountOp (kCount : Int)

/-- State after one non-`releaseFromInterrupt` semaphore operation. -/
def applySemOp (s : SemaphoreResource) : SemOp → SemaphoreResource
  | .acquireOp k => (s.acquire k).st
  | .releaseOp k => (s.release k).st
  | .hasToSwitchContexOp => s.hasToSwitchContex.2
  | .getCountOp k => (s.getCount k).st

/-- State after a sequence of non-`releaseFromInterrupt` operations. -/
def applySemOps (s : SemaphoreResource) (ops : List SemOp) : SemaphoreResource :=
  ops.foldl applySemOp s

/-- None of `acquire`, `release`, `hasToSwitchContex`, `getCount` modifies
the semaphore state (in particular not `xHigherPriorityTaskWoken_`). -/
theorem applySemOps_eq (s : SemaphoreResource) (ops : List SemOp) :
    applySemOps s ops = s := by
  induction ops generalizing s with
  | nil => rfl
  | cons op rest ih =>
    have hop : applySemOp s op = s := by
      cases op <;>
        simp [applySemOp, SemaphoreResource.acquire, SemaphoreResource.release,
          SemaphoreResource.hasToSwitchContex, SemaphoreResource.getCount] <;>
        split <;> rfl
    calc applySemOps s (op :: rest) = applySemOps (applySemOp s op) rest := rfl
      _ = applySemOps s rest := by rw [hop]
      _ = s := ih s

/-! ### Claims -/

/-- C1 (counterexample). The claim asserts that every listed public
operation — `getCount` included — begins by checking the construction
flag and, when the object is invalid, returns a failure indicator without
any kernel call. At the concrete invalid semaphore built with permits -1,
`getCount` nevertheless performs the `uxSemaphoreGetCount` kernel call and
returns the kernel's count (here 7), not a failure indicator. -/
theorem C1_counterexample :
    (mkSemaphoreCounting (-1) 5 true).constructed = false
    ∧ SemaphoreResource.getCount (mkSemaphoreCounting (-1) 5 true) 7 =
        ⟨7, mkSemaphoreCounting (-1) 5 true, [KCall.semGetCount]⟩ := by
  decide

/-- C1 (amended). On a non-validly-constructed object, Mutex `lock` and
`unlock`, Semaphore `acquire`, `release` and `releaseFromInterrupt`, and
Thread `execute`, `join`, `getPriority` and `setPriority` all return a
failure indicator (false, immediate `some false`, or the `PRIORITY_WRONG`
sentinel) without performing any kernel call; `getCount`, by exception,
performs the kernel count query unconditionally and returns its result. -/
theorem C1_validity_gating (cfg : PriorityCfg) (s : SemaphoreResource)
    (m : MutexResource) (t : ThreadResource) (kb kw : Bool) (kc p : Int)
    (obs : List Status) (hs : s.constructed = false)
    (hm : m.constructed = false) (ht : t.constructed = false) :
    m.lock kb = (false, [])
    ∧ m.unlock kb = (false, [])
    ∧ s.acquire kb = ⟨false, s, []⟩
    ∧ s.release kb = ⟨false, s, []⟩
    ∧ s.releaseFromInterrupt kb kw = ⟨false, s, []⟩
    ∧ t.execute kb = ⟨false, t, []⟩
    ∧ t.join obs = ⟨some false, t, []⟩
    ∧ ThreadResource.getPriority cfg t = cfg.PRIORITY_WRONG
    ∧ ThreadResource.setPriority cfg t p = ⟨false, t, []⟩
    ∧ s.getCount kc = ⟨kc, s, [KCall.semGetCount]⟩ := by
  refine ⟨?_, ?_, ?_, ?_, ?_, ?_, ?_, ?_, ?_, ?_⟩ <;>
    simp [MutexResource.lock, MutexResource.unlock, SemaphoreResource.acquire,
      SemaphoreResource.release, SemaphoreResource.releaseFromInterrupt,
      ThreadResource.execute, ThreadResource.join, ThreadResource.getPriority,
      ThreadResource.setPriority, SemaphoreResource.getCount, hs, hm, ht]

/-- C1 (witness). The amended theorem applied at concrete invalid objects. -/
theorem C1_witness :
    SemaphoreResource.acquire (mkSemaphoreCounting (-1) 5 true) true =
      ⟨false, mkSemaphoreCounting (-1) 5 true, []⟩ :=
  (C1_validity_gating cfg0 (mkSemaphoreCounting (-1) 5 true)
    (mkMutexResource false) (mkThreadResource cfg0 false) true true 7 3 []
    (by decide) (by decide) (by decide)).2.2.1

/-- C2. Constructing a counting semaphore with permits `p` and maximum `m`:
if `p < 0` or `m < 0` or `m > MAX_PERMITS`, the object is invalid and every
subsequent `acquire` and `release` returns false; otherwise the object is
constructed exactly when the kernel handle creation succeeds. -/
theorem C2_semaphore_construct_validation (p m : Int) (kc kt kg : Bool) :
    ((p < 0 ∨ m < 0 ∨ m > MAX_PERMITS) →
      (mkSemaphoreCounting p m kc).constructed = false
      ∧ ((mkSemaphoreCounting p m kc).acquire kt).ret = false
      ∧ ((mkSemaphoreCounting p m kc).release kg).ret = false)
    ∧ (¬(p < 0 ∨ m < 0 ∨ m > MAX_PERMITS) →
      (mkSemaphoreCounting p m kc).constructed = kc) := by
  constructor
  · intro h
    have hc : (mkSemaphoreCounting p m kc).constructed = false := by
      rcases h with hp | hm | hM
      · by_cases h0 : p < 0 <;>
          simp_all [mkSemaphoreCounting, SemaphoreResource.construct,
            setConstructed]
      · by_cases h0 : p < 0 <;>
          simp_all [mkSemaphoreCounting, SemaphoreResource.construct,
            setConstructed]
      · by_cases h0 : p < 0 <;> by_cases h1 : m < 0 <;>
          simp_all [mkSemaphoreCounting, SemaphoreResource.construct,
            setConstructed]
    exact ⟨hc, by simp [SemaphoreResource.acquire, hc],
      by simp [SemaphoreResource.release, hc]⟩
  · intro h
    push_neg at h
    obtain ⟨hp, hm, hM⟩ := h
    simp [mkSemaphoreCounting, SemaphoreResource.construct,
      SemaphoreResource.initializeSem, setConstructed, not_lt.mpr hp,
      not_lt.mpr hm, not_lt.mpr hM]

/-- C2 (witness). The theorem applied at permits -1, maximum 5 (invalid
branch) with the conclusions evaluated. -/
theorem C2_witness :
    (mkSemaphoreCounting (-1) 5 true).constructed = false
    ∧ ((mkSemaphoreCounting (-1) 5 true).acquire true).ret = false
    ∧ ((mkSemaphoreCounting (-1) 5 true).release true).ret = false :=
  (C2_semaphore_construct_validation (-1) 5 true true true).1
    (Or.inl (by decide))

/-- C3 (counterexample). The claim asserts that a validly constructed NEW
thread whose `execute()` fails transitions directly to DEAD. At the
concrete validly constructed NEW thread, `execute` with a null kernel
handle returns false and leaves the status at `STATUS_NEW`, not
`STATUS_DEAD`. -/
theorem C3_counterexample :
    (mkThreadResource cfg0 true).constructed = true
    ∧ (mkThreadResource cfg0 true).status_ = Status.STATUS_NEW
    ∧ ((mkThreadResource cfg0 true).execute false).ret = false
    ∧ ((mkThreadResource cfg0 true).execute false).st.status_ =
        Status.STATUS_NEW
    ∧ ((mkThreadResource cfg0 true).execute false).st.status_ ≠
        Status.STATUS_DEAD := by
  decide

/-- C3 (amended). For every validly constructed Thread in state NEW, if
`execute()` fails because kernel task creation returns no handle, the call
returns false and the thread stays in state NEW — it never reaches
RUNNABLE through that call (and does not move to DEAD); it is construction
failure that forces the status directly to DEAD. -/
theorem C3_execute_failure_keeps_new (t : ThreadResource) (cfg : PriorityCfg)
    (taskC : Bool) (h1 : t.constructed = true)
    (h2 : t.status_ = Status.STATUS_NEW) :
    (t.execute false).ret = false
    ∧ (t.execute false).st.status_ = Status.STATUS_NEW
    ∧ (t.execute false).st.status_ ≠ Status.STATUS_RUNNABLE
    ∧ ((mkThreadResource cfg taskC).constructed = false →
        (mkThreadResource cfg taskC).status_ = Status.STATUS_DEAD) := by
  refine ⟨?_, ?_, ?_, ?_⟩
  · simp [ThreadResource.execute, h1, h2]
  · simp [ThreadResource.execute, h1, h2]
  · simp [ThreadResource.execute, h1, h2]
  · intro hmk
    simp only [mkThreadResource, ThreadResource.construct, setConstructed] at *
    split at hmk
    · simp_all
    · simp_all

/-- C3 (witness). The amended theorem applied at the concrete valid NEW
thread. -/
theorem C3_witness :
    ((mkThreadResource cfg0 true).execute false).st.status_ =
      Status.STATUS_NEW :=
  (C3_execute_failure_keeps_new (mkThreadResource cfg0 true) cfg0 false
    (by decide) (by decide)).2.1

/-- An allowed edge of the thread lifecycle state machine: stay in place,
NEW to RUNNABLE, RUNNABLE to DEAD, or NEW directly to DEAD. -/
def statusEdgeOk (a b : Status) : Prop :=
  a = b
  ∨ (a = Status.STATUS_NEW ∧ b = Status.STATUS_RUNNABLE)
  ∨ (a = Status.STATUS_RUNNABLE ∧ b = Status.STATUS_DEAD)
  ∨ (a = Status.STATUS_NEW ∧ b = Status.STATUS_DEAD)

instance (a b : Status) : Decidable (statusEdgeOk a b) := by
  unfold statusEdgeOk; infer_instance

/-- C4. Every status-touching operation moves the status only along the
lifecycle edges: `execute`, the destructor and the trampoline respect the
edge set; `setPriority` and `join` never change the status; construction
yields NEW or (on failure) DEAD, and yields DEAD exactly when construction
failed; `execute` produces RUNNABLE only on a successful kernel task
creation; and from DEAD no operation leaves DEAD. -/
theorem C4_status_state_machine (cfg : PriorityCfg) (t : ThreadResource)
    (p : Int) (k pv taskC : Bool) (obs : List Status) :
    statusEdgeOk t.status_ (t.execute k).st.status_
    ∧ (ThreadResource.setPriority cfg t p).st.status_ = t.status_
    ∧ (ThreadResource.join t obs).st.status_ = t.status_
    ∧ statusEdgeOk t.status_ (ThreadResource.destructor t).1.status_
    ∧ statusEdgeOk t.status_ (ThreadResource.start pv t taskC).status_
    ∧ statusEdgeOk Status.STATUS_NEW (mkThreadResource cfg taskC).status_
    ∧ ((mkThreadResource cfg taskC).status_ = Status.STATUS_DEAD ↔
        (mkThreadResource cfg taskC).constructed = false)
    ∧ ((t.execute k).st.status_ = Status.STATUS_RUNNABLE →
        t.status_ = Status.STATUS_RUNNABLE
        ∨ ((t.execute k).ret = true ∧ k = true))
    ∧ (t.status_ = Status.STATUS_DEAD →
        (t.execute k).st.status_ = Status.STATUS_DEAD
        ∧ (ThreadResource.destructor t).1.status_ = Status.STATUS_DEAD
        ∧ (ThreadResource.start pv t taskC).status_ = Status.STATUS_DEAD
        ∧ (ThreadResource.setPriority cfg t p).st.status_ =
            Status.STATUS_DEAD) := by
  obtain ⟨c, st, pr, hh⟩ := t
  refine ⟨?_, ?_, ?_, ?_, ?_, ?_, ?_, ?_, ?_⟩
  · cases c <;> cases st <;> cases k <;>
      simp [ThreadResource.execute, statusEdgeOk]
  · cases c <;> cases st <;>
      simp [ThreadResource.setPriority] <;> split <;> rfl
  · cases c <;> cases st <;>
      simp [ThreadResource.join]
  · cases st <;> cases hh <;>
      simp [ThreadResource.destructor, statusEdgeOk]
  · cases c <;> cases st <;> cases pv <;> cases taskC <;>
      simp [ThreadResource.start, statusEdgeOk]
  · simp only [mkThreadResource, ThreadResource.construct]
    by_cases hA : cfg.PRIORITY_MAX ≥ cfg.configMAX_PRIORITIES <;>
      cases taskC <;> simp [statusEdgeOk, hA]
  · simp only [mkThreadResource, ThreadResource.construct, setConstructed]
    by_cases hA : cfg.PRIORITY_MAX ≥ cfg.configMAX_PRIORITIES <;>
      cases taskC <;> simp [hA]
  · cases c <;> cases st <;> cases k <;>
      simp [ThreadResource.execute]
  · intro hd
    subst hd
    cases c <;> cases pv <;> cases taskC <;>
      refine ⟨?_, ?_, ?_, ?_⟩ <;>
      simp [ThreadResource.execute, ThreadResource.destructor,
        ThreadResource.start, ThreadResource.setPriority] <;>
      split <;> rfl

/-- C4 (witness). The theorem applied at a concrete valid NEW thread,
extracting the `execute` edge. -/
theorem C4_witness :
    statusEdgeOk (mkThreadResource cfg0 true).status_
      ((mkThreadResource cfg0 true).execute true).st.status_ :=
  (C4_status_state_machine cfg0 (mkThreadResource cfg0 true) 3 true true true
    []).1

/-- C5. `execute` returns false exactly when the thread is not validly
constructed, or its status is not NEW, or the kernel task creation returns
a null handle; when it returns true, the `xTaskCreateStatic` kernel call
was performed and the status has become RUNNABLE. -/
theorem C5_execute_result (t : ThreadResource) (k : Bool) :
    ((t.execute k).ret = false ↔
      (t.constructed = false ∨ t.status_ ≠ Status.STATUS_NEW ∨ k = false))
    ∧ ((t.execute k).ret = true →
        KCall.taskCreate (ThreadResource.convertPriority t.priority_) ∈
          (t.execute k).calls
        ∧ (t.execute k).st.status_ = Status.STATUS_RUNNABLE) := by
  obtain ⟨c, st, pr, hh⟩ := t
  cases c <;> cases st <;> cases k <;>
    simp [ThreadResource.execute]

/-- C5 (witness). The theorem applied at a concrete valid NEW thread with a
successful kernel creation: the success branch's consequences evaluated. -/
theorem C5_witness :
    KCall.taskCreate
        (ThreadResource.convertPriority (mkThreadResource cfg0 true).priority_) ∈
      ((mkThreadResource cfg0 true).execute true).calls
    ∧ ((mkThreadResource cfg0 true).execute true).st.status_ =
        Status.STATUS_RUNNABLE :=
  (C5_execute_result (mkThreadResource cfg0 true) true).2 (by decide)

/-- C6. `setPriority p` on a valid thread validates `p` against
`[PRIORITY_MIN, PRIORITY_MAX] ∪ {PRIORITY_IDLE}`; with valid `p` and
status RUNNABLE it propagates `vTaskPrioritySet` to the kernel and stores
`p`; with valid `p` and status NEW it stores `p` without a kernel call and
without setting the returned success flag to true; in every other case
(invalid `p`, status DEAD, or not constructed) the state — in particular
the stored priority — is unchanged. -/
theorem C6_setPriority_semantics (cfg : PriorityCfg) (t : ThreadResource)
    (p : Int) :
    (t.constructed = true → ThreadResource.isPriority cfg p = true →
      t.status_ = Status.STATUS_RUNNABLE →
        ThreadResource.setPriority cfg t p =
          ⟨false, { t with priority_ := p },
            [KCall.taskPrioritySet (ThreadResource.convertPriority p)]⟩)
    ∧ (t.constructed = true → ThreadResource.isPriority cfg p = true →
      t.status_ = Status.STATUS_NEW →
        ThreadResource.setPriority cfg t p =
          ⟨false, { t with priority_ := p }, []⟩)
    ∧ ((t.constructed = false ∨ ThreadResource.isPriority cfg p = false ∨
        t.status_ = Status.STATUS_DEAD) →
        (ThreadResource.setPriority cfg t p).st = t)
    ∧ (ThreadResource.isPriority cfg p = true ↔
        ((cfg.PRIORITY_MIN ≤ p ∧ p ≤ cfg.PRIORITY_MAX) ∨
          p = cfg.PRIORITY_IDLE)) := by
  refine ⟨?_, ?_, ?_, ?_⟩
  · intro h1 h2 h3
    simp [ThreadResource.setPriority, h1, h2, h3]
  · intro h1 h2 h3
    simp [ThreadResource.setPriority, h1, h2, h3]
  · rintro (h | h | h)
    · simp [ThreadResource.setPriority, h]
    · simp [ThreadResource.setPriority, h]
    · obtain ⟨c, st, pr, hh⟩ := t
      cases c <;> simp_all [ThreadResource.setPriority]
  · unfold ThreadResource.isPriority
    split
    · simp_all
    · split <;> simp_all

/-- C6 (witness). The theorem applied at a concrete valid NEW thread and
priority 7: the NEW branch stores 7, performs no kernel call, and does not
return true. -/
theorem C6_witness :
    ThreadResource.setPriority cfg0 (mkThreadResource cfg0 true) 7 =
      ⟨false, { mkThreadResource cfg0 true with priority_ := 7 }, []⟩ :=
  (C6_setPriority_semantics cfg0 (mkThreadResource cfg0 true) 7).2.1
    (by decide) (by decide) (by decide)

/-- C7 (counterexample). The claim asserts that a binary semaphore ignores
the initial-permits argument for every value, behaving as if zero had been
passed. With permits -1 construction fails (the shared `permits_ < 0`
validation rejects it), while with permits 0 it succeeds: the construction
outcome is not the same. -/
theorem C7_counterexample :
    (mkSemaphoreTyped SemType.TYPE_BINARY (-1) true).constructed = false
    ∧ (mkSemaphoreTyped SemType.TYPE_BINARY 0 true).constructed = true := by
  decide

/-- C7 (amended). The kernel binary-semaphore creation call carries no
count argument at all, and for every non-negative permits value the
construction outcome and the observable behaviour of every subsequent
operation equal those of a binary semaphore constructed with zero;
however, a negative permits value still fails the shared construction
validation and yields an invalid object. -/
theorem C7_binary_ignores_permits (p kn : Int) (kc kt kg kw : Bool)
    (h : 0 ≤ p) :
    SemaphoreResource.initializeSem SemType.TYPE_BINARY MAX_PERMITS p kc =
      (kc, [CreateCall.binaryStatic])
    ∧ (mkSemaphoreTyped SemType.TYPE_BINARY p kc).constructed =
        (mkSemaphoreTyped SemType.TYPE_BINARY 0 kc).constructed
    ∧ ((mkSemaphoreTyped SemType.TYPE_BINARY p kc).acquire kt).ret =
        ((mkSemaphoreTyped SemType.TYPE_BINARY 0 kc).acquire kt).ret
    ∧ ((mkSemaphoreTyped SemType.TYPE_BINARY p kc).release kg).ret =
        ((mkSemaphoreTyped SemType.TYPE_BINARY 0 kc).release kg).ret
    ∧ ((mkSemaphoreTyped SemType.TYPE_BINARY p kc).releaseFromInterrupt
          kg kw).ret =
        ((mkSemaphoreTyped SemType.TYPE_BINARY 0 kc).releaseFromInterrupt
          kg kw).ret
    ∧ ((mkSemaphoreTyped SemType.TYPE_BINARY p kc).releaseFromInterrupt
          kg kw).st.xHigherPriorityTaskWoken_ =
        ((mkSemaphoreTyped SemType.TYPE_BINARY 0 kc).releaseFromInterrupt
          kg kw).st.xHigherPriorityTaskWoken_
    ∧ ((mkSemaphoreTyped SemType.TYPE_BINARY p kc).getCount kn).ret =
        ((mkSemaphoreTyped SemType.TYPE_BINARY 0 kc).getCount kn).ret
    ∧ (mkSemaphoreTyped SemType.TYPE_BINARY p kc).hasToSwitchContex.1 =
        (mkSemaphoreTyped SemType.TYPE_BINARY 0 kc).hasToSwitchContex.1 := by
  have hcon : (mkSemaphoreTyped SemType.TYPE_BINARY p kc).constructed = kc := by
    simp [mkSemaphoreTyped, SemaphoreResource.construct,
      SemaphoreResource.initializeSem, setConstructed, not_lt.mpr h, MAX_PERMITS]
  have hcon0 : (mkSemaphoreTyped SemType.TYPE_BINARY 0 kc).constructed = kc := by
    simp [mkSemaphoreTyped, SemaphoreResource.construct,
      SemaphoreResource.initializeSem, setConstructed, MAX_PERMITS]
  refine ⟨?_, ?_, ?_, ?_, ?_, ?_, ?_, ?_⟩
  · simp [SemaphoreResource.initializeSem]
  · rw [hcon, hcon0]
  · simp only [SemaphoreResource.acquire, hcon, hcon0]
    split <;> rfl
  · simp only [SemaphoreResource.release, hcon, hcon0]
    split <;> rfl
  · simp only [SemaphoreResource.releaseFromInterrupt, hcon, hcon0]
    split <;> rfl
  · simp only [SemaphoreResource.releaseFromInterrupt, hcon, hcon0]
    split <;> rfl
  · simp [SemaphoreResource.getCount]
  · simp [SemaphoreResource.hasToSwitchContex, mkSemaphoreTyped]

/-- C7 (witness). The amended theorem applied at permits 5: a binary
semaphore built with 5 is constructed exactly like one built with 0. -/
theorem C7_witness :
    (mkSemaphoreTyped SemType.TYPE_BINARY 5 true).constructed =
      (mkSemaphoreTyped SemType.TYPE_BINARY 0 true).constructed :=
  (C7_binary_ignores_permits 5 9 true true true true (by decide)).2.1

/-- C8 (counterexample). The claim asserts the flag set by
`releaseFromInterrupt` keeps `hasToSwitchContex` true until the next
release call resets it. At a concrete valid binary semaphore, after a
`releaseFromInterrupt` that woke a higher-priority task, a `release()`
call does not reset the flag: `hasToSwitchContex` still returns true on
the post-`release` state. -/
theorem C8_counterexample :
    (((mkSemaphoreTyped SemType.TYPE_BINARY 0 true).releaseFromInterrupt
        true true).st.xHigherPriorityTaskWoken_ = true)
    ∧ ((((mkSemaphoreTyped SemType.TYPE_BINARY 0 true).releaseFromInterrupt
        true true).st.release true).st.hasToSwitchContex.1 = true) := by
  decide

/-- C8 (amended). After `releaseFromInterrupt` on a validly constructed
semaphore whose kernel give unblocked a higher-priority task,
`hasToSwitchContex` returns true and keeps returning true across any
sequence of `acquire`, `release`, `hasToSwitchContex` and `getCount`
calls — none of them, `release` included, modifies the flag — until the
next `releaseFromInterrupt` call overwrites the flag with the kernel's new
verdict; `hasToSwitchContex` itself leaves the state unchanged. -/
theorem C8_switch_context_flag (s : SemaphoreResource) (kg kg2 kw2 : Bool)
    (ops : List SemOp) (hc : s.constructed = true) :
    ((s.releaseFromInterrupt kg true).st.hasToSwitchContex.1 = true)
    ∧ SemaphoreResource.xHigherPriorityTaskWoken_
        (applySemOps (s.releaseFromInterrupt kg true).st ops) = true
    ∧ (SemaphoreResource.releaseFromInterrupt
        (applySemOps (s.releaseFromInterrupt kg true).st ops) kg2
        kw2).st.xHigherPriorityTaskWoken_ = kw2
    ∧ s.hasToSwitchContex.2 = s := by
  have h1 : (s.releaseFromInterrupt kg true).st =
      { s with xHigherPriorityTaskWoken_ := true } := by
    simp [SemaphoreResource.releaseFromInterrupt, hc]
  refine ⟨?_, ?_, ?_, rfl⟩
  · rw [h1]; rfl
  · rw [applySemOps_eq, h1]
  · rw [applySemOps_eq, h1]
    simp [SemaphoreResource.releaseFromInterrupt, hc]

/-- C8 (witness). The amended theorem applied at a concrete valid binary
semaphore with an intervening `release` call. -/
theorem C8_witness :
    (applySemOps
        ((mkSemaphoreTyped SemType.TYPE_BINARY 0 true).releaseFromInterrupt
          true true).st [SemOp.releaseOp true]).xHigherPriorityTaskWoken_ =
      true :=
  (C8_switch_context_flag (mkSemaphoreTyped SemType.TYPE_BINARY 0 true) true
    true false [SemOp.releaseOp true] (by decide)).2.1

/-- C9. `setPriority` returns false on every call: for every priority
configuration, every thread state (construction flag, status, stored
priority) and every priority argument, the returned success flag is
false — even on the paths that validate, store and propagate the
priority. -/
theorem C9_setPriority_always_false (cfg : PriorityCfg) (t : ThreadResource)
    (p : Int) : (ThreadResource.setPriority cfg t p).ret = false := by
  obtain ⟨c, st, pr, hh⟩ := t
  cases c <;> cases st <;>
    simp [ThreadResource.setPriority] <;> split <;> rfl

/-- C10. `join` on a thread whose status is NEW or DEAD returns false
immediately — unchanged state, no kernel call, no observation of the
concurrently written status consumed — and `join` can return true only
when called on a validly constructed thread whose status is RUNNABLE. -/
theorem C10_join_semantics (t : ThreadResource) (obs : List Status) :
    ((t.status_ = Status.STATUS_NEW ∨ t.status_ = Status.STATUS_DEAD) →
      t.join obs = ⟨some false, t, []⟩)
    ∧ ((t.join obs).ret = some true →
        t.constructed = true ∧ t.status_ = Status.STATUS_RUNNABLE) := by
  constructor
  · intro h
    have hne : ¬(t.constructed = true ∧ t.status_ = Status.STATUS_RUNNABLE) := by
      rcases h with h | h <;> simp [h]
    simp [ThreadResource.join, hne]
  · intro h
    by_cases hg : t.constructed = true ∧ t.status_ = Status.STATUS_RUNNABLE
    · exact hg
    · simp [ThreadResource.join, hg] at h

/-- C10 (witness). The theorem applied at a concrete valid NEW thread:
join returns false immediately even with a pending DEAD observation. -/
theorem C10_witness :
    (mkThreadResource cfg0 true).join [Status.STATUS_DEAD] =
      ⟨some false, mkThreadResource cfg0 true, []⟩ :=
  (C10_join_semantics (mkThreadResource cfg0 true) [Status.STATUS_DEAD]).1
    (Or.inl (by decide))

end EoosFreertos
